import Mathlib

/-!
Verification of the concurrent username-probing engine (Rust sources under
`src/`). The detection logic of `check_site_internal` (src/engine/mod.rs) is
embedded as a pure function parameterized over the regex compiler
(`Regex::new` + `is_match`, modelled as `String → Option (String → Bool)`)
and the HTTP probe (`HttpClient::get/head/post/put`, modelled as
`Request → Except String Response`). Besides the
`Option QueryResult` of the source, the embedding also returns the list of HTTP requests it
issued, so that "no network request is issued" is a statement about the
returned trace. `serde_json::Value` payloads are modelled by their serialized
string. Instants are modelled as natural-number milliseconds.
-/

/-- Mirror of `ErrorType` from src/data/mod.rs. -/
inductive ErrorType where
  | StatusCode
  | Message
  | Redirect
  | ResponseUrl
  deriving DecidableEq, Repr

/-- Mirror of `ErrorMessages` from src/data/mod.rs: one marker or a list of markers. -/
inductive ErrorMessages where
  | Single (s : String)
  | Multiple (v : List String)
  deriving DecidableEq, Repr

/-- Mirror of `SiteInfo` from src/data/mod.rs (the `headers` field, unused by the
engine, is modelled as an association list; `request_payload` is the
serialized form of the `serde_json::Value`). -/
structure SiteInfo where
  url : String
  url_main : String
  error_type : ErrorType
  error_msg : Option ErrorMessages := none
  error_url : Option String := none
  regex_check : Option String := none
  username_claimed : Option String := none
  request_method : Option String := none
  request_payload : Option String := none
  url_probe : Option String := none
  headers : Option (List (String × String)) := none
  is_nsfw : Option Bool := none
  deriving DecidableEq, Repr

/-- Mirror of `QueryStatus` from src/engine/mod.rs. -/
inductive QueryStatus where
  | Claimed
  | Available
  | Error
  | Illegal
  | Unknown
  deriving DecidableEq, Repr

/-- Mirror of `QueryResult` from src/engine/mod.rs. -/
structure QueryResult where
  username : String
  site_name : String
  site_url : String
  profile_url : String
  status : QueryStatus
  http_status : Option Nat
  error_message : Option String
  response_time_ms : Option Nat
  deriving DecidableEq, Repr

/-- Constructor `QueryResult::new`. -/
def QueryResult.new (username site_name site_url profile_url : String)
    (status : QueryStatus) : QueryResult :=
  { username := username
    site_name := site_name
    site_url := site_url
    profile_url := profile_url
    status := status
    http_status := none
    error_message := none
    response_time_ms := none }

/-- Constructor `QueryResult::claimed`. -/
def QueryResult.claimed (username site_name site_url profile_url : String) :
    QueryResult :=
  QueryResult.new username site_name site_url profile_url QueryStatus.Claimed

/-- Constructor `QueryResult::available`. -/
def QueryResult.available (username site_name site_url profile_url : String) :
    QueryResult :=
  QueryResult.new username site_name site_url profile_url QueryStatus.Available

/-- Constructor `QueryResult::error` (note: leaves `response_time_ms := none`). -/
def QueryResult.error (username site_name site_url profile_url e : String) :
    QueryResult :=
  { QueryResult.new username site_name site_url profile_url QueryStatus.Error
    with error_message := some e }

/-- Constructor `QueryResult::illegal`. -/
def QueryResult.illegal (username site_name site_url : String) : QueryResult :=
  QueryResult.new username site_name site_url "" QueryStatus.Illegal

/-- Predicate `QueryResult::is_claimed`. -/
def QueryResult.is_claimed (r : QueryResult) : Bool :=
  r.status == QueryStatus.Claimed

/-- HTTP method of a probe request. -/
inductive HttpMethod where
  | GET
  | HEAD
  | POST
  | PUT
  deriving DecidableEq, Repr

/-- One HTTP request as handed to the `HttpClient` (method, url, optional
body). -/
structure Request where
  method : HttpMethod
  url : String
  body : Option String := none
  deriving DecidableEq, Repr

/-- A successful HTTP exchange as seen by the engine: `response.status()`,
`response.url()` after redirects, and `response.text()` (which itself can
fail, hence `Option`). -/
structure Response where
  status : Nat
  finalUrl : String
  text : Option String := none
  deriving DecidableEq, Repr

/-- Outcome of a probe: a response, or a transport fault carrying
`e.to_string()`. -/
abbrev ProbeOutcome := Except String Response

/-- The regex collaborator: `Regex::new` returning `Ok(re)` is modelled as
`some` of the matcher `fun u => re.is_match(u)`; `Err(_)` as `none`. -/
abbrev RegexCompiler := String → Option (String → Bool)

/-- Rust `str::contains` (substring containment). Valid UTF-8 is
self-synchronizing, so byte-level containment coincides with containment of
the character sequence. -/
def textContains (text msg : String) : Bool :=
  decide (msg.toList <:+: text.toList)

/-- The early-return validation check at the top of `check_site_internal`:
rejects iff `regex_check` is present, compiles, and does not match the
username. An absent or unparseable pattern never rejects. -/
def validation_rejects (compile : RegexCompiler) (site_info : SiteInfo)
    (username : String) : Bool :=
  match site_info.regex_check with
  | some pattern =>
    match compile pattern with
    | some isMatch => ! isMatch username
    | none => false
  | none => false

/-- Mirrors `site_info.url.replace("\x7b\x7d", username)`. -/
def resolve_profile_url (site_info : SiteInfo) (username : String) : String :=
  site_info.url.replace "\x7b\x7d" username

/-- Mirrors `site_info.url_probe.as_ref().unwrap_or(&profile_url).replace("\x7b\x7d", username)`. -/
def resolve_probe_url (site_info : SiteInfo) (username : String) : String :=
  ((site_info.url_probe.getD (resolve_profile_url site_info username)).replace
    "\x7b\x7d" username)

/-- The method-selection match of `check_site_internal`: POST/PUT send the
payload as body; HEAD or no configured method uses HEAD for `StatusCode`
sites and GET otherwise; any other configured method falls back to GET. -/
def build_request (site_info : SiteInfo) (username : String) : Request :=
  let probe_url := resolve_probe_url site_info username
  match site_info.request_method with
  | some m =>
    if m = "POST" then
      { method := HttpMethod.POST, url := probe_url,
        body := site_info.request_payload }
    else if m = "PUT" then
      { method := HttpMethod.PUT, url := probe_url,
        body := site_info.request_payload }
    else if m = "HEAD" then
      if site_info.error_type = ErrorType.StatusCode then
        { method := HttpMethod.HEAD, url := probe_url }
      else
        { method := HttpMethod.GET, url := probe_url }
    else
      { method := HttpMethod.GET, url := probe_url }
  | none =>
    if site_info.error_type = ErrorType.StatusCode then
      { method := HttpMethod.HEAD, url := probe_url }
    else
      { method := HttpMethod.GET, url := probe_url }

/-- The `msg_list` built in the Message branch of `check_site_internal`:
`ErrorMessages::Single` contributes one marker, `Multiple` its list. -/
def marker_list : ErrorMessages → List String
  | ErrorMessages.Single s => [s]
  | ErrorMessages.Multiple v => v

/-- The `detected` computation of `check_site_internal`, by strategy. -/
def detect (site_info : SiteInfo) (response : Response) : Bool :=
  match site_info.error_type with
  | ErrorType.StatusCode =>
    response.status == 200
  | ErrorType.Message =>
    match response.text with
    | some text =>
      match site_info.error_msg with
      | some error_msgs =>
        let msg_list : List String := marker_list error_msgs
        ! msg_list.any (fun msg => textContains text msg)
      | none => response.status == 200
    | none => response.status == 200
  | ErrorType.Redirect =>
    response.status != 404 && response.status != 403
  | ErrorType.ResponseUrl =>
    match site_info.error_url with
    | some error_url => response.finalUrl != error_url
    | none => response.status == 200

/-- Function `check_site_internal` from src/engine/mod.rs, plus the list of HTTP
requests it issued (the source issues exactly one request unless the
validation check returns early). `elapsed` is the measured duration of the
exchange in milliseconds; `timeout` is the (unused) parameter of the source
function. -/
def check_site_internal (compile : RegexCompiler)
    (probe : Request → ProbeOutcome) (elapsed : Nat)
    (username site_name : String) (site_info : SiteInfo) (_timeout : Nat) :
    Option QueryResult × List Request :=
  if validation_rejects compile site_info username then
    (some (QueryResult.illegal username site_name site_info.url_main), [])
  else
    let profile_url := resolve_profile_url site_info username
    let request := build_request site_info username
    match probe request with
    | Except.ok response =>
      let http_status := response.status
      let query_result :=
        if detect site_info response then
          QueryResult.claimed username site_name site_info.url_main profile_url
        else
          QueryResult.available username site_name site_info.url_main profile_url
      (some { query_result with
                http_status := some http_status
                response_time_ms := some elapsed },
       [request])
    | Except.error e =>
      (some (QueryResult.error username site_name site_info.url_main
               profile_url e),
       [request])

/-- Mirror of `RateLimiter` from src/ratelimit/mod.rs: a map from domain to the
`Instant` of the last dispatch (modelled as milliseconds) plus the
configured delay. The `HashMap` is modelled as an association list whose
`insert` replaces any earlier binding. -/
structure RateLimiter where
  delays : List (String × Nat)
  delay_ms : Nat
  deriving DecidableEq, Repr

/-- Constructor `RateLimiter::new`. -/
def RateLimiter.new (delay_ms : Nat) : RateLimiter :=
  { delays := [], delay_ms := delay_ms }

/-- Map update `HashMap::insert`: bind `domain` to `t`, dropping any earlier binding. -/
def RateLimiter.record (rl : RateLimiter) (domain : String) (t : Nat) :
    RateLimiter :=
  { rl with delays :=
      (domain, t) :: rl.delays.filter (fun p => p.fst != domain) }

/-- Method `RateLimiter::wait_for` from src/ratelimit/mod.rs, with time made
explicit: `now` is the value of the first `Instant::now()`; the returned
`Nat` is the duration slept (`delay - elapsed` when the domain was seen less
than `delay_ms` ago, otherwise zero), and the second `Instant::now()` that
the source stores after sleeping is modelled as `now + slept` (exact sleep,
no scheduling overhead). When `delay_ms == 0` the source returns at once
without touching the map. -/
def RateLimiter.wait_for (rl : RateLimiter) (domain : String) (now : Nat) :
    Nat × RateLimiter :=
  if rl.delay_ms = 0 then
    (0, rl)
  else
    let sleep_time :=
      match rl.delays.lookup domain with
      | some last_request =>
        let elapsed := now - last_request
        if elapsed < rl.delay_ms then rl.delay_ms - elapsed else 0
      | none => 0
    (sleep_time, rl.record domain (now + sleep_time))

/-- Outcome of `handle.await` on one spawned task: `none` when the task
faulted (a `JoinError`), `some o` when the task ran to completion and
returned `o : Option QueryResult`. -/
abbrev JoinOutcome := Option (Option QueryResult)

/-- The result-collection loop of `search_username`
(`if let Ok(Some(result)) = handle.await { results.push(result) }`). -/
def collect_results (outcomes : List JoinOutcome) : List QueryResult :=
  outcomes.filterMap (fun o =>
    match o with
    | some (some r) => some r
    | _ => none)

/-- Interleaving model of the dispatch loop of `search_username`
(src/engine/mod.rs lines 117-141): `pending` sites not yet dispatched,
`running` spawned tasks still executing (each holding one semaphore
permit), `completed`/`faulted` finished tasks, `available` free permits,
`returned` whether the final join loop has finished. -/
structure DispatchState where
  pending : Nat
  running : Nat
  completed : Nat
  faulted : Nat
  available : Nat
  returned : Bool
  deriving DecidableEq, Repr

/-- Initial state: `Semaphore::new(max_concurrent)` with all permits free,
`num_sites` sites to dispatch, nothing spawned. -/
def DispatchState.init (max_concurrent num_sites : Nat) : DispatchState :=
  { pending := num_sites
    running := 0
    completed := 0
    faulted := 0
    available := max_concurrent
    returned := false }

/-- One scheduler step of the dispatch loop:
`spawn` models `acquire_owned().await` succeeding followed by
`tokio::spawn` (the loop body has no suspension point between the two);
`finish_ok` a task finishing `check_site_internal` and dropping its permit;
`finish_fault` a task faulting (its permit is released by unwinding);
`ret` the join loop completing, which requires that every site was spawned
and every spawned task has finished. -/
inductive DispatchStep : DispatchState → DispatchState → Prop where
  | spawn (s : DispatchState) (hp : 0 < s.pending) (ha : 0 < s.available)
      (hr : s.returned = false) :
      DispatchStep s { s with pending := s.pending - 1
                              available := s.available - 1
                              running := s.running + 1 }
  | finish_ok (s : DispatchState) (hr : 0 < s.running) :
      DispatchStep s { s with running := s.running - 1
                              completed := s.completed + 1
                              available := s.available + 1 }
  | finish_fault (s : DispatchState) (hr : 0 < s.running) :
      DispatchStep s { s with running := s.running - 1
                              faulted := s.faulted + 1
                              available := s.available + 1 }
  | ret (s : DispatchState) (hp : s.pending = 0) (hr : s.running = 0)
      (hn : s.returned = false) :
      DispatchStep s { s with returned := true }

/-- States reachable during one `search_username` run with concurrency
ceiling `N` over `M` eligible sites. -/
def DispatchReachable (N M : Nat) (s : DispatchState) : Prop :=
  Relation.ReflTransGen DispatchStep (DispatchState.init N M) s

/-- Mirror of `SearchEngine` from src/engine/mod.rs; its `http_client` is the probe
collaborator. -/
structure SearchEngine where
  http_client : Request → ProbeOutcome
  timeout : Nat
  max_concurrent : Nat
  include_nsfw : Bool

/-- Method `SearchEngine::check_site` from src/engine/mod.rs, transcribed from its
own body (which repeats the logic of the free function, using
`self.http_client` and no timeout parameter). -/
def SearchEngine.check_site (se : SearchEngine) (compile : RegexCompiler)
    (elapsed : Nat) (username site_name : String) (site_info : SiteInfo) :
    Option QueryResult × List Request :=
  if validation_rejects compile site_info username then
    (some (QueryResult.illegal username site_name site_info.url_main), [])
  else
    let profile_url := resolve_profile_url site_info username
    let request := build_request site_info username
    match se.http_client request with
    | Except.ok response =>
      let http_status := response.status
      let query_result :=
        if detect site_info response then
          QueryResult.claimed username site_name site_info.url_main profile_url
        else
          QueryResult.available username site_name site_info.url_main profile_url
      (some { query_result with
                http_status := some http_status
                response_time_ms := some elapsed },
       [request])
    | Except.error e =>
      (some (QueryResult.error username site_name site_info.url_main
               profile_url e),
       [request])

/-! Concrete sample data used by witnesses and counterexamples. -/

/-- A toy regex engine: it knows the single pattern `^[a-z]+$` (matching
nonempty all-lowercase-ASCII usernames) and fails to compile anything
else, mirroring `Regex::new` succeeding on some patterns and not others. -/
def sampleCompile : RegexCompiler := fun p =>
  if p = "^[a-z]+$" then
    some (fun u => ! u.isEmpty && u.toList.all (fun c => c.isLower))
  else
    none

/-- A `StatusCode`-strategy site without validation pattern. -/
def statusSite : SiteInfo :=
  { url := "https://example.com/\x7b\x7d"
    url_main := "https://example.com"
    error_type := ErrorType.StatusCode }

/-- A `StatusCode`-strategy site with the validation pattern `^[a-z]+$`. -/
def regexSite : SiteInfo :=
  { statusSite with regex_check := some "^[a-z]+$" }

/-- A `StatusCode`-strategy site with an unparseable validation pattern. -/
def badPatternSite : SiteInfo :=
  { statusSite with regex_check := some "(" }

/-- A `Message`-strategy site whose configured marker collection is the
empty list. -/
def emptyMarkerSite : SiteInfo :=
  { url := "https://msg.example/\x7b\x7d"
    url_main := "https://msg.example"
    error_type := ErrorType.Message
    error_msg := some (ErrorMessages.Multiple []) }

/-- A `Message`-strategy site with the single marker "not found". -/
def msgSite : SiteInfo :=
  { url := "https://msg.example/\x7b\x7d"
    url_main := "https://msg.example"
    error_type := ErrorType.Message
    error_msg := some (ErrorMessages.Single "not found") }

/-- A `ResponseUrl`-strategy site with a configured miss-URL. -/
def respUrlSite : SiteInfo :=
  { url := "https://r.example/\x7b\x7d"
    url_main := "https://r.example"
    error_type := ErrorType.ResponseUrl
    error_url := some "https://r.example/404" }

/-- A 200 response with a body. -/
def okResponse200 : Response :=
  { status := 200, finalUrl := "https://example.com/alice",
    text := some "profile of alice" }

/-- A 404 response with a body free of any marker. -/
def plainResponse404 : Response :=
  { status := 404, finalUrl := "https://msg.example/alice",
    text := some "whatever" }

/-- A probe that always answers with `okResponse200`. -/
def okProbe200 : Request → ProbeOutcome := fun _ => Except.ok okResponse200

/-- A probe that always answers with `plainResponse404`. -/
def probe404 : Request → ProbeOutcome := fun _ => Except.ok plainResponse404

/-- A probe that always fails with a transport fault. -/
def failProbe : Request → ProbeOutcome := fun _ =>
  Except.error "error sending request: connection refused"

/-! The theorems. -/

/-- Accounting invariant of the dispatch loop: permits are conserved
(`available + running = max_concurrent`), every site is pending, running
or finished, and the call has returned only once nothing is pending or
running. -/
theorem dispatch_invariant (N M : Nat) (s : DispatchState)
    (h : DispatchReachable N M s) :
    s.available + s.running = N ∧
    s.pending + s.running + s.completed + s.faulted = M ∧
    (s.returned = true → s.pending = 0 ∧ s.running = 0) := by
  induction h with
  | refl => simp [DispatchState.init]
  | tail _ hstep ih =>
    obtain ⟨i1, i2, i3⟩ := ih
    cases hstep with
    | spawn hp ha hr =>
      refine ⟨by simp only; omega, by simp only; omega, fun hret => ?_⟩
      simp [hr] at hret
    | finish_ok hr =>
      refine ⟨by simp only; omega, by simp only; omega, fun hret => ?_⟩
      simp only at hret
      have h0 := i3 hret
      omega
    | finish_fault hr =>
      refine ⟨by simp only; omega, by simp only; omega, fun hret => ?_⟩
      simp only at hret
      have h0 := i3 hret
      omega
    | ret hp hr hn =>
      exact ⟨i1, i2, fun _ => ⟨hp, hr⟩⟩

/-- C6: at no instant during a `search_username` run does the number of
concurrently executing probes exceed the configured ceiling
`max_concurrent`: in every reachable state of the dispatch loop,
`running ≤ N`. -/
theorem concurrency_ceiling (N M : Nat) (s : DispatchState)
    (h : DispatchReachable N M s) : s.running ≤ N := by
  have hi := dispatch_invariant N M s h
  omega

/-- Witness for `concurrency_ceiling` at the initial state of a run with
ceiling 5 over 3 sites. -/
theorem concurrency_ceiling_witness : (DispatchState.init 5 3).running ≤ 5 :=
  concurrency_ceiling 5 3 (DispatchState.init 5 3) Relation.ReflTransGen.refl

/-- C4: `search_username` returns only after every spawned task finished
(in any reachable state with `returned = true`, nothing is pending or
running and the finished tasks account for all `M` sites), and a faulted
task contributes no result to the returned collection while the other
results of the other tasks are still collected (`collect_results` drops a `none` join
outcome and keeps everything around it). -/
theorem structured_join_fault_isolation :
    (∀ N M s, DispatchReachable N M s → s.returned = true →
      s.pending = 0 ∧ s.running = 0 ∧ s.completed + s.faulted = M) ∧
    (∀ (xs ys : List JoinOutcome),
      collect_results (xs ++ none :: ys) =
        collect_results xs ++ collect_results ys) := by
  constructor
  · intro N M s h hret
    have hi := dispatch_invariant N M s h
    have hz := hi.2.2 hret
    exact ⟨hz.1, hz.2, by omega⟩
  · intro xs ys
    simp [collect_results]

/-- Witness for `structured_join_fault_isolation`: a returned state of a
run over zero sites has all tasks accounted for, and a single faulted
outcome yields the empty collection. -/
theorem structured_join_fault_isolation_witness :
    ({ DispatchState.init 5 0 with returned := true }).completed +
      ({ DispatchState.init 5 0 with returned := true }).faulted = 0 ∧
    collect_results ([] ++ none :: []) =
      collect_results [] ++ collect_results [] :=
  ⟨(structured_join_fault_isolation.1 5 0 _
      (Relation.ReflTransGen.single
        (DispatchStep.ret (DispatchState.init 5 0) rfl rfl rfl)) rfl).2.2,
   structured_join_fault_isolation.2 [] []⟩

/-- C10: `SearchEngine::check_site` and the free function
`check_site_internal` are behaviorally identical: on every regex engine,
identifier, site name, site descriptor and probe outcome they return the
same result (the extra `timeout` parameter of the free function is never
read). -/
theorem check_site_eq_check_site_internal (se : SearchEngine)
    (compile : RegexCompiler) (elapsed : Nat) (username site_name : String)
    (site_info : SiteInfo) (timeout : Nat) :
    se.check_site compile elapsed username site_name site_info =
      check_site_internal compile se.http_client elapsed username site_name
        site_info timeout := rfl

/-- C3: when the validation pattern is present, compiles, and rejects the
identifier, `check_site_internal` returns the `Illegal` result and issues
no HTTP request whatsoever (empty request trace, result independent of the
probe). -/
theorem validation_illegal_no_probe (compile : RegexCompiler)
    (probe : Request → ProbeOutcome) (elapsed : Nat)
    (username site_name : String) (site_info : SiteInfo) (timeout : Nat)
    (pattern : String) (isMatch : String → Bool)
    (hpat : site_info.regex_check = some pattern)
    (hcomp : compile pattern = some isMatch)
    (hmatch : isMatch username = false) :
    check_site_internal compile probe elapsed username site_name site_info
        timeout =
      (some (QueryResult.illegal username site_name site_info.url_main),
       []) := by
  unfold check_site_internal validation_rejects
  simp [hpat, hcomp, hmatch]

/-- Witness for `validation_illegal_no_probe`: identifier "Al1ce" fails
the pattern of `regexSite`, yielding `Illegal` with no request. -/
theorem validation_illegal_no_probe_witness :
    check_site_internal sampleCompile okProbe200 5 "Al1ce" "RegexSite"
        regexSite 10 =
      (some (QueryResult.illegal "Al1ce" "RegexSite" regexSite.url_main),
       []) :=
  validation_illegal_no_probe sampleCompile okProbe200 5 "Al1ce" "RegexSite"
    regexSite 10 "^[a-z]+$"
    (fun u => ! u.isEmpty && u.toList.all (fun c => c.isLower))
    rfl rfl (by decide)

/-- C9: a validation pattern that fails to compile is skipped: the site
behaves exactly as if it had no validation pattern, and the probe is
issued (exactly one request, no `Illegal`, no abort). -/
theorem unparseable_pattern_proceeds (compile : RegexCompiler)
    (probe : Request → ProbeOutcome) (elapsed : Nat)
    (username site_name : String) (site_info : SiteInfo) (timeout : Nat)
    (pattern : String)
    (hpat : site_info.regex_check = some pattern)
    (hcomp : compile pattern = none) :
    check_site_internal compile probe elapsed username site_name site_info
        timeout =
      check_site_internal compile probe elapsed username site_name
        { site_info with regex_check := none } timeout ∧
    (check_site_internal compile probe elapsed username site_name site_info
        timeout).snd = [build_request site_info username] := by
  have h1 : validation_rejects compile site_info username = false := by
    simp [validation_rejects, hpat, hcomp]
  have h2 : validation_rejects compile
      { site_info with regex_check := none } username = false := by
    simp [validation_rejects]
  constructor
  · unfold check_site_internal
    rw [h1, h2]
    rfl
  · unfold check_site_internal
    simp only [h1, Bool.false_eq_true, if_false]
    split <;> rfl

/-- Witness for `unparseable_pattern_proceeds`: `badPatternSite` has the
pattern "(" which `sampleCompile` rejects; the probe proceeds. -/
theorem unparseable_pattern_proceeds_witness :
    (check_site_internal sampleCompile okProbe200 5 "alice" "BadSite"
        badPatternSite 10 =
      check_site_internal sampleCompile okProbe200 5 "alice" "BadSite"
        { badPatternSite with regex_check := none } 10) ∧
    (check_site_internal sampleCompile okProbe200 5 "alice" "BadSite"
        badPatternSite 10).snd = [build_request badPatternSite "alice"] :=
  unparseable_pattern_proceeds sampleCompile okProbe200 5 "alice" "BadSite"
    badPatternSite 10 "(" rfl rfl

/-- On a successful exchange (validation passed), the returned status is
`Claimed` when `detect` fires and `Available` otherwise. -/
theorem check_status_ok (compile : RegexCompiler)
    (probe : Request → ProbeOutcome) (elapsed : Nat)
    (username site_name : String) (site_info : SiteInfo) (timeout : Nat)
    (response : Response)
    (hv : validation_rejects compile site_info username = false)
    (hp : probe (build_request site_info username) = Except.ok response) :
    (check_site_internal compile probe elapsed username site_name site_info
        timeout).fst.map QueryResult.status =
      some (if detect site_info response then QueryStatus.Claimed
            else QueryStatus.Available) := by
  unfold check_site_internal
  simp only [hv, Bool.false_eq_true, if_false, hp]
  by_cases hd : detect site_info response <;>
    simp [hd, QueryResult.claimed, QueryResult.available, QueryResult.new]

/-- C7: for `StatusCode`-strategy sites, a successful probe yields
`Claimed` exactly when the status is 200, irrespective of the body, and
every other successful outcome yields `Available`. -/
theorem status_code_strategy_spec (compile : RegexCompiler)
    (probe : Request → ProbeOutcome) (elapsed : Nat)
    (username site_name : String) (site_info : SiteInfo) (timeout : Nat)
    (response : Response)
    (hv : validation_rejects compile site_info username = false)
    (het : site_info.error_type = ErrorType.StatusCode)
    (hp : probe (build_request site_info username) = Except.ok response) :
    (check_site_internal compile probe elapsed username site_name site_info
        timeout).fst.map QueryResult.status =
      some (if response.status = 200 then QueryStatus.Claimed
            else QueryStatus.Available) := by
  rw [check_status_ok compile probe elapsed username site_name site_info
    timeout response hv hp]
  by_cases hs : response.status = 200 <;> simp [detect, het, hs]

/-- Witness for `status_code_strategy_spec`: `statusSite` probed with a
200 response is `Claimed`. -/
theorem status_code_strategy_spec_witness :
    (check_site_internal sampleCompile okProbe200 5 "alice" "ExampleSite"
        statusSite 10).fst.map QueryResult.status =
      some (if okResponse200.status = 200 then QueryStatus.Claimed
            else QueryStatus.Available) :=
  status_code_strategy_spec sampleCompile okProbe200 5 "alice" "ExampleSite"
    statusSite 10 okResponse200 rfl rfl rfl

/-- C8: for `ResponseUrl`-strategy sites, a successful probe yields
`Claimed` iff the final response URL differs from the configured
`errorUrl`; with no `errorUrl`, iff the status is 200. -/
theorem response_url_strategy_spec (compile : RegexCompiler)
    (probe : Request → ProbeOutcome) (elapsed : Nat)
    (username site_name : String) (site_info : SiteInfo) (timeout : Nat)
    (response : Response)
    (hv : validation_rejects compile site_info username = false)
    (het : site_info.error_type = ErrorType.ResponseUrl)
    (hp : probe (build_request site_info username) = Except.ok response) :
    (∀ u, site_info.error_url = some u →
      ((check_site_internal compile probe elapsed username site_name
          site_info timeout).fst.map QueryResult.status =
            some QueryStatus.Claimed ↔ response.finalUrl ≠ u)) ∧
    (site_info.error_url = none →
      ((check_site_internal compile probe elapsed username site_name
          site_info timeout).fst.map QueryResult.status =
            some QueryStatus.Claimed ↔ response.status = 200)) := by
  have hok := check_status_ok compile probe elapsed username site_name
    site_info timeout response hv hp
  constructor
  · intro u hu
    rw [hok]
    by_cases hc : response.finalUrl = u <;> simp [detect, het, hu, hc]
  · intro hu
    rw [hok]
    by_cases hc : response.status = 200 <;> simp [detect, het, hu, hc]

/-- Witness for `response_url_strategy_spec`: `respUrlSite` with a final
URL different from its miss-URL is `Claimed`. -/
theorem response_url_strategy_spec_witness :
    (check_site_internal sampleCompile probe404 5 "alice" "RespUrlSite"
        respUrlSite 10).fst.map QueryResult.status =
      some QueryStatus.Claimed :=
  ((response_url_strategy_spec sampleCompile probe404 5 "alice" "RespUrlSite"
      respUrlSite 10 plainResponse404 rfl rfl rfl).1
    "https://r.example/404" rfl).mpr (by decide)

/-- C1 counterexample: `emptyMarkerSite` configures an empty marker
collection (`errorMsg = Multiple []`). The claim demands that with zero
configured markers the result be `Claimed` iff the status is 200; the code
instead takes the marker branch and, the empty list vacuously containing
no occurring marker, answers `Claimed` even on this 404 response. -/
theorem message_empty_markers_counterexample :
    (check_site_internal (fun _ => none)
        (fun _ => Except.ok plainResponse404) 5 "alice" "MsgSite"
        emptyMarkerSite 10).fst.map QueryResult.status =
      some QueryStatus.Claimed ∧
    plainResponse404.status ≠ 200 := by
  constructor
  · rfl
  · decide

/-- C1 (amended): for `Message`-strategy sites with a readable body, the
result is `Claimed` iff none of the configured markers occurs as a
substring of the body (vacuously `Claimed` when the configured collection
is empty); the status == 200 fallback applies only when `errorMsg` is
absent, not when it is present but empty. -/
theorem message_strategy_spec (compile : RegexCompiler)
    (probe : Request → ProbeOutcome) (elapsed : Nat)
    (username site_name : String) (site_info : SiteInfo) (timeout : Nat)
    (response : Response) (body : String)
    (hv : validation_rejects compile site_info username = false)
    (het : site_info.error_type = ErrorType.Message)
    (hp : probe (build_request site_info username) = Except.ok response)
    (htext : response.text = some body) :
    (∀ msgs, site_info.error_msg = some msgs →
      ((check_site_internal compile probe elapsed username site_name
          site_info timeout).fst.map QueryResult.status =
            some QueryStatus.Claimed ↔
        ∀ msg ∈ marker_list msgs, textContains body msg = false)) ∧
    (site_info.error_msg = none →
      ((check_site_internal compile probe elapsed username site_name
          site_info timeout).fst.map QueryResult.status =
            some QueryStatus.Claimed ↔ response.status = 200)) := by
  have hok := check_status_ok compile probe elapsed username site_name
    site_info timeout response hv hp
  constructor
  · intro msgs hm
    rw [hok]
    by_cases hd : (marker_list msgs).any (fun msg => textContains body msg)
    · simp only [detect, het, htext, hm, hd]
      obtain ⟨msg, hmem, hcont⟩ := List.any_eq_true.mp hd
      simp only [Bool.not_true, Bool.false_eq_true, if_false]
      constructor
      · intro h0
        cases h0
      · intro hall
        rw [hall msg hmem] at hcont
        cases hcont
    · have hd2 : (marker_list msgs).any (fun msg => textContains body msg)
          = false := by
        simpa using hd
      simp only [detect, het, htext, hm, hd2, Bool.not_false, if_true]
      rw [List.any_eq_false] at hd2
      simp only [Bool.not_eq_true] at hd2
      simp only [Option.some.injEq, true_iff]
      exact hd2
  · intro hm
    rw [hok]
    by_cases hs : response.status = 200 <;> simp [detect, het, htext, hm, hs]

/-- Witness for `message_strategy_spec`: `msgSite` with the marker
"not found" and the body "whatever" (marker absent) is `Claimed`. -/
theorem message_strategy_spec_witness :
    (check_site_internal sampleCompile probe404 5 "alice" "MsgSite" msgSite
        10).fst.map QueryResult.status = some QueryStatus.Claimed :=
  ((message_strategy_spec sampleCompile probe404 5 "alice" "MsgSite" msgSite
      10 plainResponse404 "whatever" rfl rfl rfl rfl).1
    (ErrorMessages.Single "not found") rfl).mpr (by decide)

/-- C2 counterexample: on a transport fault the engine builds the result
with `QueryResult::error`, which leaves `response_time_ms = None`, so the
elapsed time is NOT recorded in every outcome. -/
theorem transport_fault_time_counterexample :
    (check_site_internal (fun _ => none) failProbe 7 "alice" "ExampleSite"
        statusSite 10).fst.map
          (fun r => (r.status, r.response_time_ms)) =
      some (QueryStatus.Error, none) := rfl

/-- C2 (amended): the elapsed milliseconds of the exchange are recorded in
the result when the HTTP exchange succeeds; on a transport fault the
`Error` result is built by `QueryResult::error` and carries
`response_time_ms = none`. -/
theorem response_time_spec (compile : RegexCompiler)
    (probe : Request → ProbeOutcome) (elapsed : Nat)
    (username site_name : String) (site_info : SiteInfo) (timeout : Nat)
    (hv : validation_rejects compile site_info username = false) :
    (∀ response, probe (build_request site_info username) =
        Except.ok response →
      (check_site_internal compile probe elapsed username site_name
          site_info timeout).fst.map QueryResult.response_time_ms =
        some (some elapsed)) ∧
    (∀ e, probe (build_request site_info username) = Except.error e →
      (check_site_internal compile probe elapsed username site_name
          site_info timeout).fst.map QueryResult.response_time_ms =
        some none) := by
  constructor <;>
    · intro x hx
      unfold check_site_internal
      simp [hv, hx, QueryResult.error, QueryResult.claimed,
        QueryResult.available, QueryResult.new]

/-- Witness for `response_time_spec`: a successful probe of `statusSite`
records 5 ms; a transport fault against the same site records nothing. -/
theorem response_time_spec_witness :
    ((check_site_internal sampleCompile okProbe200 5 "alice" "ExampleSite"
        statusSite 10).fst.map QueryResult.response_time_ms =
      some (some 5)) ∧
    ((check_site_internal sampleCompile failProbe 5 "alice" "ExampleSite"
        statusSite 10).fst.map QueryResult.response_time_ms =
      some none) :=
  ⟨(response_time_spec sampleCompile okProbe200 5 "alice" "ExampleSite"
      statusSite 10 rfl).1 okResponse200 rfl,
   (response_time_spec sampleCompile failProbe 5 "alice" "ExampleSite"
      statusSite 10 rfl).2
     "error sending request: connection refused" rfl⟩

/-- Looking up a domain right after recording it finds the recorded
instant. -/
theorem record_lookup (rl : RateLimiter) (domain : String) (t : Nat) :
    (rl.record domain t).delays.lookup domain = some t := by
  simp [RateLimiter.record, List.lookup]

/-- With a positive delay, `wait_for` stores `record domain (now + slept)`
and keeps the configured delay. -/
theorem wait_for_snd (rl : RateLimiter) (domain : String) (now : Nat)
    (hd : rl.delay_ms ≠ 0) :
    (rl.wait_for domain now).snd =
      rl.record domain (now + (rl.wait_for domain now).fst) ∧
    (rl.wait_for domain now).snd.delay_ms = rl.delay_ms := by
  simp [RateLimiter.wait_for, hd, RateLimiter.record]

/-- With a positive delay and a recorded last dispatch, `wait_for` sleeps
the remainder of the delay window when inside it, and nothing otherwise. -/
theorem wait_for_fst_of_lookup (rl : RateLimiter) (domain : String)
    (now last : Nat) (hd : rl.delay_ms ≠ 0)
    (hl : rl.delays.lookup domain = some last) :
    (rl.wait_for domain now).fst =
      if now - last < rl.delay_ms then rl.delay_ms - (now - last)
      else 0 := by
  simp [RateLimiter.wait_for, hd, hl]

/-- C5: `wait_for` with delay 0 returns at once without touching the map;
with a positive delay D it sleeps exactly the remainder when the domain
was dispatched less than D ms ago, it records the completion instant as
the new last-dispatch time of the domain, and two consecutive calls for the
same domain complete at least D ms apart (`now + slept` being the
completion instant of a call entered at `now`). -/
theorem wait_for_spec (rl : RateLimiter) (domain : String) (now : Nat) :
    (rl.delay_ms = 0 → rl.wait_for domain now = (0, rl)) ∧
    (0 < rl.delay_ms →
      ∀ last, rl.delays.lookup domain = some last →
        now - last < rl.delay_ms →
          (rl.wait_for domain now).fst = rl.delay_ms - (now - last)) ∧
    (0 < rl.delay_ms →
      (rl.wait_for domain now).snd.delays.lookup domain =
        some (now + (rl.wait_for domain now).fst)) ∧
    (0 < rl.delay_ms → ∀ now2,
      now + (rl.wait_for domain now).fst ≤ now2 →
        now + (rl.wait_for domain now).fst + rl.delay_ms ≤
          now2 + ((rl.wait_for domain now).snd.wait_for domain
            now2).fst) := by
  refine ⟨?_, ?_, ?_, ?_⟩
  · intro h0
    simp [RateLimiter.wait_for, h0]
  · intro hpos last hlast hlt
    have hne : rl.delay_ms ≠ 0 := by omega
    simp [RateLimiter.wait_for, hne, hlast, hlt]
  · intro hpos
    have hne : rl.delay_ms ≠ 0 := by omega
    rw [(wait_for_snd rl domain now hne).1]
    exact record_lookup rl domain (now + (rl.wait_for domain now).fst)
  · intro hpos now2 h2
    have hne : rl.delay_ms ≠ 0 := by omega
    rw [(wait_for_snd rl domain now hne).1]
    generalize hs1 : (rl.wait_for domain now).fst = s1 at h2 ⊢
    have hdm : (rl.record domain (now + s1)).delay_ms = rl.delay_ms := rfl
    rw [wait_for_fst_of_lookup (rl.record domain (now + s1)) domain now2
      (now + s1) (by rw [hdm]; exact hne) (record_lookup rl domain (now + s1))]
    rw [hdm]
    split <;> omega

/-- Witness for `wait_for_spec`: with delay 0 nothing happens; with delay
100, a first call entered at t=100 and a second call entered at t=150
complete at least 100 ms apart. -/
theorem wait_for_spec_witness :
    ((RateLimiter.new 0).wait_for "example.com" 3 =
      (0, RateLimiter.new 0)) ∧
    (100 + ((RateLimiter.new 100).wait_for "example.com" 100).fst + 100 ≤
      150 + (((RateLimiter.new 100).wait_for "example.com"
        100).snd.wait_for "example.com" 150).fst) :=
  ⟨(wait_for_spec (RateLimiter.new 0) "example.com" 3).1 rfl,
   (wait_for_spec (RateLimiter.new 100) "example.com" 100).2.2.2
     (by decide) 150 (by decide)⟩
